import Mathlib

/-!
Shallow embedding of the pypm ParticleMesh state machine
(src/pypm/particlemesh.py) and verification of its specification.

Modelling conventions:
* The distributed real and complex views are modelled as flat lists of
  rationals over the local extent of one rank.  Complex values are
  abstracted to rationals: none of the verified properties depend on the
  algebra of complex numbers, only on copying, scaling and stack
  discipline.
* The external collaborators (the pfft forward/backward plans, the cic
  paint/readout kernels) are not part of this repository; they enter the
  model as opaque function parameters of the operations that invoke them,
  exactly at their call sites.
* The irrational factor 2*pi/Nmesh used by the k-vector builder is
  represented by an abstract rational field twoPiOverNmesh; both the code
  model and the spec formula scale by this same symbol, so their
  comparison is exact.
* Python integer floor division (Nmesh // 2) is Nat division.
-/

namespace PyPM

/-- A transfer function, as consumed by ParticleMesh.transfer: it receives
the complex field and the triple of per-axis wavenumber arrays and returns
the mutated complex field.  The communicator argument of the Python
signature carries no data relevant to the verified properties and is
dropped. -/
def TransferFn : Type := List ℚ → (Fin 3 → List ℚ) → List ℚ

/-- The state of a ParticleMesh object on one rank, from
ParticleMesh.__init__: mesh geometry, the partition extents read from the
external pfft Partition, the two views of the field buffer, and the
snapshot stack.  The head of stack is the most recently pushed entry
(Python appends to and pops from the end of the list). -/
structure ParticleMesh where
  Nmesh : ℕ
  BoxSize : ℚ
  twoPiOverNmesh : ℚ
  local_i_start : Fin 3 → ℤ
  local_no : Fin 3 → ℕ
  local_o_start : Fin 3 → ℕ
  real : List ℚ
  complex : List ℚ
  stack : List (List ℚ)

/-- ParticleMesh.__init__ (particlemesh.py lines 60-108), restricted to the
state the claims concern: the real view is zero-filled (real[:] = 0, line
93), the complex view is whatever the freshly allocated buffer holds
(view_output of an uninitialized LocalBuffer, modelled by the parameter
bufferOut), and the snapshot stack starts empty (line 108). -/
def mkParticleMesh (BoxSize : ℚ) (Nmesh : ℕ) (twoPiOverNmesh : ℚ)
    (local_i_start : Fin 3 → ℤ) (local_no : Fin 3 → ℕ)
    (local_o_start : Fin 3 → ℕ) (realSize : ℕ) (bufferOut : List ℚ) :
    ParticleMesh :=
  { Nmesh := Nmesh
    BoxSize := BoxSize
    twoPiOverNmesh := twoPiOverNmesh
    local_i_start := local_i_start
    local_no := local_no
    local_o_start := local_o_start
    real := List.replicate realSize 0
    complex := bufferOut
    stack := [] }

/-- ParticleMesh.transform (lines 110-127), pointwise on one position
triplet: ret = (1.0 * Nmesh / BoxSize) * x - partition.local_i_start,
per axis. -/
def transform (pm : ParticleMesh) (x : Fin 3 → ℚ) : Fin 3 → ℚ :=
  fun d => (pm.Nmesh : ℚ) / pm.BoxSize * x d - (pm.local_i_start d : ℚ)

/-- ParticleMesh.transform0 (lines 129-146), pointwise on one position
triplet: ret = (1.0 * Nmesh / BoxSize) * x, per axis.  The spec calls this
map transformGlobal. -/
def transform0 (pm : ParticleMesh) (x : Fin 3 → ℚ) : Fin 3 → ℚ :=
  fun d => (pm.Nmesh : ℚ) / pm.BoxSize * x d

/-- transform applied to a batch of positions (numpy broadcasts the affine
map over the leading axis of the input array). -/
def transformBatch (pm : ParticleMesh) (xs : List (Fin 3 → ℚ)) :
    List (Fin 3 → ℚ) :=
  xs.map (transform pm)

/-- transform0 applied to a batch of positions. -/
def transform0Batch (pm : ParticleMesh) (xs : List (Fin 3 → ℚ)) :
    List (Fin 3 → ℚ) :=
  xs.map (transform0 pm)

/-- ParticleMesh.clear (lines 167-179).  In the source this method
consists of a docstring only: no statement follows the docstring, so the
method body is empty and the call returns the state unchanged.  (The
docstring itself says it sets real[:] = 0; the code does not.) -/
def clear (pm : ParticleMesh) : ParticleMesh := pm

/-- ParticleMesh.r2c (lines 220-248).  If positions are given, clear()
then paint() runs first; the external cic.paint kernel is the opaque
parameter paintFn acting on the real view.  Then the real view is
rescaled in place by (1/BoxSize)^3 (line 240), and the external forward
plan (the opaque parameter fwd) writes the complex view from the real
view (line 248).  The verbose diagnostic branch and the commented-out
mean-removal branch have no effect on the state. -/
def r2c (fwd : List ℚ → List ℚ) (paintFn : List ℚ → List ℚ)
    (pos : Option Unit) (pm : ParticleMesh) : ParticleMesh :=
  let pm1 :=
    match pos with
    | some _ => let pmc := clear pm; { pmc with real := paintFn pmc.real }
    | none => pm
  let scaled := pm1.real.map (fun v => v * (1 / pm1.BoxSize) ^ 3)
  { pm1 with real := scaled, complex := fwd scaled }

/-- ParticleMesh.push (lines 255-263): append a copy of the complex view
to the stack.  The list head models the Python list end. -/
def push (pm : ParticleMesh) : ParticleMesh :=
  { pm with stack := pm.complex :: pm.stack }

/-- ParticleMesh.pop (lines 265-272): complex[:] = stack.pop().  Python
list.pop() on an empty list raises IndexError; the error outcome is
modelled by none. -/
def pop (pm : ParticleMesh) : Option ParticleMesh :=
  match pm.stack with
  | [] => none
  | top :: rest => some { pm with complex := top, stack := rest }

/-- The per-axis wavenumber array built inside ParticleMesh.transfer
(lines 287-294): wi = arange(local_no[d]) + local_o_start[d]; entries with
wi >= Nmesh // 2 have Nmesh subtracted; then wi *= 2*pi/Nmesh, the last
factor abstracted as the rational parameter twoPiOverNmesh. -/
def wavearray (Nmesh no ostart : ℕ) (twoPiOverNmesh : ℚ) : List ℚ :=
  (List.range no).map (fun (i : ℕ) =>
    (if ((Nmesh / 2 : ℕ) : ℚ) ≤ (i : ℚ) + (ostart : ℚ)
      then (i : ℚ) + (ostart : ℚ) - (Nmesh : ℚ)
      else (i : ℚ) + (ostart : ℚ)) * twoPiOverNmesh)

/-- The broadcast shape s of the axis-d wavenumber array (transfer, lines
289-290): ones everywhere except local_no[d] on axis d. -/
def wshape (pm : ParticleMesh) (d : Fin 3) : Fin 3 → ℕ :=
  fun a => if a = d then pm.local_no d else 1

/-- The triple w of wavenumber arrays built by ParticleMesh.transfer. -/
def wlist (pm : ParticleMesh) : Fin 3 → List ℚ :=
  fun d => wavearray pm.Nmesh (pm.local_no d) (pm.local_o_start d)
    pm.twoPiOverNmesh

/-- ParticleMesh.transfer (lines 274-298): build the wavenumber triple
once, then apply each transfer function to the complex field in the
supplied order, each seeing the mutations of its predecessors. -/
def transfer (fs : List TransferFn) (pm : ParticleMesh) : ParticleMesh :=
  { pm with complex := fs.foldl (fun c f => f c (wlist pm)) pm.complex }

/-- ParticleMesh.readout (lines 300-319): if pos is not None, delegate to
the external cic.readout kernel (the opaque parameter readoutFn) on the
real view and return its result; otherwise fall through the method body,
returning None.  The pair also returns the (unchanged) state to make the
absence of side effects explicit. -/
def readout (readoutFn : List ℚ → List (Fin 3 → ℚ) → List ℚ)
    (pos : Option (List (Fin 3 → ℚ))) (pm : ParticleMesh) :
    Option (List ℚ) × ParticleMesh :=
  match pos with
  | some p => (some (readoutFn pm.real p), pm)
  | none => (none, pm)

/-- ParticleMesh.c2r (lines 321-344): push, apply the transfer chain,
execute the external backward plan (the opaque parameter bwd) into the
real view, then pop.  The pop error outcome propagates as none. -/
def c2r (fs : List TransferFn) (bwd : List ℚ → List ℚ)
    (pm : ParticleMesh) : Option ParticleMesh :=
  let pm1 := push pm
  let pm2 := transfer fs pm1
  let pm3 := { pm2 with real := bwd pm2.complex }
  pop pm3

/-- A concrete single-rank mesh state with a nonzero real view, used to
exercise clear(). -/
def clearTestMesh : ParticleMesh :=
  { Nmesh := 8
    BoxSize := 1
    twoPiOverNmesh := 1
    local_i_start := fun _ => 0
    local_no := fun _ => 8
    local_o_start := fun _ => 0
    real := [1, 2, 3]
    complex := [4, 5]
    stack := [] }

/-- A concrete mesh with one pushed snapshot, used to exercise pop(). -/
def popTestMesh : ParticleMesh :=
  { Nmesh := 4
    BoxSize := 2
    twoPiOverNmesh := 1
    local_i_start := fun _ => 0
    local_no := fun _ => 4
    local_o_start := fun _ => 0
    real := [0, 0]
    complex := [1, 2]
    stack := [[9, 9]] }

/-- The same mesh with an empty snapshot stack. -/
def popEmptyMesh : ParticleMesh := { popTestMesh with stack := [] }

/-- A concrete single-rank mesh with Nmesh = 8 and axis offset 0, matching
the worked folding example of the spec; twoPiOverNmesh is instantiated at
1 so the folded frequencies appear unscaled. -/
def w8mesh : ParticleMesh :=
  { Nmesh := 8
    BoxSize := 1
    twoPiOverNmesh := 1
    local_i_start := fun _ => 0
    local_no := fun _ => 8
    local_o_start := fun _ => 0
    real := [0]
    complex := [0]
    stack := [] }

/-- A freshly constructed mesh (real view zeroed, empty stack), before any
forward transform has run. -/
def freshMeshC4 : ParticleMesh :=
  mkParticleMesh 1 8 1 (fun _ => 0) (fun _ => 8) (fun _ => 0) 4 [5, 6]

/-- A second freshly constructed mesh, for the amended-claim witness. -/
def freshMeshC4b : ParticleMesh :=
  mkParticleMesh 2 4 1 (fun _ => 0) (fun _ => 4) (fun _ => 0) 2 [1]

/-- Claim C1 (code bug exhibited): at the concrete state clearTestMesh,
whose real view is [1, 2, 3], clear() leaves the real view unchanged and
nonzero — the method body in the source is empty (docstring only), so the
real view is not zeroed, contradicting both the claim and the docstring of
clear() itself. -/
theorem C1_clear_leaves_real_view_nonzero :
    (clear clearTestMesh).real = [1, 2, 3] ∧
    ¬ (∀ q ∈ (clear clearTestMesh).real, q = 0) := by
  refine ⟨rfl, fun hall => ?_⟩
  have h1 : (1 : ℚ) = 0 := hall 1 (by simp [clear, clearTestMesh])
  norm_num at h1

/-- Claim C2: c2r executes as push, then the transfer chain, then the
backward transform into the real view, then pop; consequently the call
succeeds, the resulting complex view equals its pre-call value, and the
snapshot-stack depth equals its pre-call depth — for every state and every
chain, the empty chain included. -/
theorem C2_c2r_push_transfer_backward_pop (pm : ParticleMesh)
    (fs : List TransferFn) (bwd : List ℚ → List ℚ) :
    c2r fs bwd pm
        = some { pm with real := bwd ((transfer fs (push pm)).complex) } ∧
    Option.map ParticleMesh.complex (c2r fs bwd pm) = some pm.complex ∧
    Option.map (fun s => s.stack.length) (c2r fs bwd pm)
        = some pm.stack.length :=
  ⟨rfl, rfl, rfl⟩

/-- Claim C3: for each axis d, the wavenumber array built by transfer has
length equal to the local transposed complex extent along d (its broadcast
shape is size 1 on the other axes), and the entry at local index i with
global offset o equals (i+o) * 2pi/Nmesh when i+o < Nmesh/2, and
((i+o) - Nmesh) * 2pi/Nmesh otherwise. -/
theorem C3_transfer_wavenumber_spec (pm : ParticleMesh) (d : Fin 3) :
    (wlist pm d).length = pm.local_no d ∧
    (∀ i, i < pm.local_no d →
      (wlist pm d).get? i
        = some ((if i + pm.local_o_start d < pm.Nmesh / 2
            then ((i : ℚ) + (pm.local_o_start d : ℚ))
            else ((i : ℚ) + (pm.local_o_start d : ℚ)) - (pm.Nmesh : ℚ))
            * pm.twoPiOverNmesh)) ∧
    (wshape pm d d = pm.local_no d ∧ ∀ a, a ≠ d → wshape pm d a = 1) := by
  refine ⟨by simp only [wlist, wavearray, List.length_map, List.length_range],
    ?_, by simp [wshape], ?_⟩
  · intro i h
    simp only [wlist, wavearray, List.get?_eq_getElem?, List.getElem?_map,
      List.getElem?_range h, Option.map_some']
    by_cases hc : i + pm.local_o_start d < pm.Nmesh / 2
    · have hc' : ¬ (((pm.Nmesh / 2 : ℕ) : ℚ)
          ≤ (i : ℚ) + (pm.local_o_start d : ℚ)) := by
        rw [show (i : ℚ) + (pm.local_o_start d : ℚ)
            = ((i + pm.local_o_start d : ℕ) : ℚ) by push_cast; ring]
        rw [not_le, Nat.cast_lt]
        exact hc
      rw [if_neg hc', if_pos hc]
    · have hc' : ((pm.Nmesh / 2 : ℕ) : ℚ)
          ≤ (i : ℚ) + (pm.local_o_start d : ℚ) := by
        rw [show (i : ℚ) + (pm.local_o_start d : ℚ)
            = ((i + pm.local_o_start d : ℕ) : ℚ) by push_cast; ring]
        rw [Nat.cast_le]
        omega
      rw [if_pos hc', if_neg hc]
  · intro a ha
    simp [wshape, ha]

/-- Claim C3 witness: on the concrete mesh with Nmesh = 8 and offset 0
(and the 2pi/Nmesh factor instantiated at 1), local index 5 folds to -3
and local index 3 stays at 3, as the spec's worked example states. -/
theorem C3_transfer_wavenumber_spec_witness :
    ((wlist w8mesh 0).get? 5
        = some ((if 5 + w8mesh.local_o_start 0 < w8mesh.Nmesh / 2
            then ((5 : ℚ) + (w8mesh.local_o_start 0 : ℚ))
            else ((5 : ℚ) + (w8mesh.local_o_start 0 : ℚ)) - (w8mesh.Nmesh : ℚ))
            * w8mesh.twoPiOverNmesh)) ∧
    (wlist w8mesh 0).get? 5 = some (-3) ∧
    (wlist w8mesh 0).get? 3 = some 3 ∧
    wshape w8mesh 0 1 = 1 :=
  ⟨(C3_transfer_wavenumber_spec w8mesh 0).2.1 5 (by norm_num [w8mesh]),
   by norm_num [wlist, wavearray, w8mesh, List.range_succ],
   by norm_num [wlist, wavearray, w8mesh, List.range_succ],
   (C3_transfer_wavenumber_spec w8mesh 0).2.2.2 1 (by decide)⟩

/-- Claim C4 counterexample: on a freshly constructed mesh, before any
forward transform has populated the complex view, c2r with the empty
chain completes without raising — it returns a result, because c2r pushes
a snapshot before its pop, so the pop never sees an empty stack. -/
theorem C4_c2r_before_r2c_raises_nothing :
    freshMeshC4.stack = [] ∧ (c2r [] id freshMeshC4).isSome = true :=
  ⟨rfl, rfl⟩

/-- Claim C4 amended: invoking the backward pipeline never raises a usage
error, on any state (in particular before any forward transform); the
fatal empty-stack error exists only for a direct pop() on an empty
snapshot stack. -/
theorem C4_c2r_total_pop_empty_fatal (pm : ParticleMesh)
    (fs : List TransferFn) (bwd : List ℚ → List ℚ) :
    (c2r fs bwd pm).isSome = true ∧ (pm.stack = [] → pop pm = none) := by
  refine ⟨rfl, ?_⟩
  intro h
  simp [pop, h]

/-- Claim C4 amended witness: on a concrete fresh mesh, c2r succeeds and a
direct pop fails. -/
theorem C4_c2r_total_pop_empty_fatal_witness :
    (c2r [] id freshMeshC4b).isSome = true ∧ pop freshMeshC4b = none :=
  ⟨(C4_c2r_total_pop_empty_fatal freshMeshC4b [] id).1,
   (C4_c2r_total_pop_empty_fatal freshMeshC4b [] id).2 rfl⟩

/-- Claim C5: r2c (without positions) rescales the real view in place by
(1/BoxSize)^3 before the forward transform executes on the rescaled data,
and a second r2c on the same real data applies the scaling a second
time. -/
theorem C5_r2c_rescales_twice_if_called_twice (pm : ParticleMesh)
    (fwd paintFn : List ℚ → List ℚ) :
    (r2c fwd paintFn none pm).real
        = pm.real.map (fun v => v * (1 / pm.BoxSize) ^ 3) ∧
    (r2c fwd paintFn none pm).complex
        = fwd (pm.real.map (fun v => v * (1 / pm.BoxSize) ^ 3)) ∧
    (r2c fwd paintFn none (r2c fwd paintFn none pm)).real
        = pm.real.map (fun v => v * (1 / pm.BoxSize) ^ 3
            * (1 / pm.BoxSize) ^ 3) := by
  refine ⟨rfl, rfl, ?_⟩
  show (pm.real.map (fun v => v * (1 / pm.BoxSize) ^ 3)).map
      (fun v => v * (1 / pm.BoxSize) ^ 3)
    = pm.real.map (fun v => v * (1 / pm.BoxSize) ^ 3 * (1 / pm.BoxSize) ^ 3)
  rw [List.map_map]
  rfl

/-- Claim C6: push followed immediately by pop restores the entire state,
so the complex view is bit-identical to its pre-push value and the
snapshot stack is back at its pre-push depth. -/
theorem C6_push_pop_roundtrip (pm : ParticleMesh) : pop (push pm) = some pm :=
  rfl

/-- Claim C7: on every batch of position triplets (the empty batch
included), transform0 (the spec's transformGlobal) equals transform plus
local_i_start elementwise, and both are the stated affine maps scaled by
Nmesh/BoxSize. -/
theorem C7_transformGlobal_affine_consistency (pm : ParticleMesh)
    (xs : List (Fin 3 → ℚ)) :
    transform0Batch pm xs
        = (transformBatch pm xs).map
            (fun t d => t d + (pm.local_i_start d : ℚ)) ∧
    transformBatch pm xs
        = xs.map (fun x d => (pm.Nmesh : ℚ) / pm.BoxSize * x d
            - (pm.local_i_start d : ℚ)) ∧
    transform0Batch pm xs
        = xs.map (fun x d => (pm.Nmesh : ℚ) / pm.BoxSize * x d) := by
  refine ⟨?_, rfl, rfl⟩
  simp only [transform0Batch, transformBatch, List.map_map]
  congr 1
  funext x
  funext d
  simp only [Function.comp, transform, transform0]
  ring

/-- Claim C8: a freshly constructed ParticleMesh starts cleared — its real
view is all zeros and its snapshot stack is empty. -/
theorem C8_mk_starts_cleared (B : ℚ) (N : ℕ) (c : ℚ) (lis : Fin 3 → ℤ)
    (lno lost : Fin 3 → ℕ) (n : ℕ) (buf : List ℚ) :
    (mkParticleMesh B N c lis lno lost n buf).real = List.replicate n 0 ∧
    (∀ q ∈ (mkParticleMesh B N c lis lno lost n buf).real, q = 0) ∧
    (mkParticleMesh B N c lis lno lost n buf).stack = [] := by
  refine ⟨rfl, ?_, rfl⟩
  intro q hq
  exact List.eq_of_mem_replicate hq

/-- Claim C8 witness: a concrete fresh mesh has a zero element in its real
view wherever one looks. -/
theorem C8_mk_starts_cleared_witness :
    (0 : ℚ) ∈ (mkParticleMesh 1 8 1 (fun _ => 0) (fun _ => 8) (fun _ => 0)
      4 [7]).real ∧ (0 : ℚ) = 0 :=
  ⟨by simp [mkParticleMesh, List.mem_replicate],
   (C8_mk_starts_cleared 1 8 1 (fun _ => 0) (fun _ => 8) (fun _ => 0)
      4 [7]).2.1 0 (by simp [mkParticleMesh, List.mem_replicate])⟩

/-- Claim C9: pop on a non-empty stack overwrites the complex view with
the removed top entry, and pop on an empty stack is an error (none), never
a silent success. -/
theorem C9_pop_contract (pm : ParticleMesh) :
    (∀ top rest, pm.stack = top :: rest →
        pop pm = some { pm with complex := top, stack := rest }) ∧
    (pm.stack = [] → pop pm = none) := by
  constructor
  · intro top rest h
    simp [pop, h]
  · intro h
    simp [pop, h]

/-- Claim C9 witness: on a concrete mesh with one snapshot, pop restores
it and removes it from the stack; on the same mesh with an empty stack,
pop errors. -/
theorem C9_pop_contract_witness :
    pop popTestMesh
        = some { popTestMesh with complex := [9, 9], stack := [] } ∧
    pop popEmptyMesh = none :=
  ⟨(C9_pop_contract popTestMesh).1 [9, 9] [] rfl,
   (C9_pop_contract popEmptyMesh).2 rfl⟩

/-- Claim C10: readout with pos = None returns None (not an empty array),
performs no interpolation, and leaves the state — the real view in
particular — untouched, for every state and every readout kernel. -/
theorem C10_readout_none_returns_none (pm : ParticleMesh)
    (f : List ℚ → List (Fin 3 → ℚ) → List ℚ) :
    readout f none pm = (none, pm) :=
  rfl

end PyPM
